import Mathlib

/-!
Shallow embedding of `runner/speech_recognition.h` / `runner/speech_recognition.cpp`:
the `SpeechRecognition` class, a Windows SAPI based recognition session.

Native handles are modelled as booleans (non-null or null); the outcome of each
native SAPI/COM call is supplied by an `Env` record (which calls succeed).  Every
operation is a state transformer that additionally produces a list of observable
effects (`Eff`): resource acquisitions and releases, engine operations, thread
spawn/join, callback-slot accesses (tagged with whether `callback_mutex_` is held
at that point in the source), and callback invocations.  `WideToUtf8` is not
modelled separately: the text attached to a recognition event is carried directly
as the UTF-8 string the callback would receive (empty wide text converts to the
empty UTF-8 string).
-/

namespace SpeechRec

/-- Which of the three callback fields is being accessed
(`result_callback_`, `error_callback_`, `status_callback_`). -/
inductive Slot
  | result
  | error
  | status
deriving DecidableEq

/-- Observable effects of the operations of `SpeechRecognition`. -/
inductive Eff
  | acquireCom
  | acquireRecognizer
  | acquireContext
  | acquireGrammar
  | setEventHandle
  | clearEventHandle
  | closeEventHandle
  | releaseGrammar
  | releaseContext
  | releaseRecognizer
  | coUninit
  | setInterestOp
  | loadDictationOp
  | activateOp
  | deactivateOp
  | spawnThread
  | joinThread
  | readSlot (slot : Slot) (locked : Bool)
  | writeSlot (slot : Slot) (locked : Bool)
  | invokeResult (text : String) (isFinal : Bool)
  | invokeError (msg : String)
  | invokeStatus (st : String)
  | releaseEventObject
  | coTaskFree
deriving DecidableEq

/-- Outcome of `CoInitializeEx` (line 38): plain success, the tolerated
`RPC_E_CHANGED_MODE` failure, or any other failure. -/
inductive CoInitRes
  | ok
  | changedMode
  | failed
deriving DecidableEq

/-- Which native calls succeed in a given run. -/
structure Env where
  coInit : CoInitRes
  createRecognizerOk : Bool
  createContextOk : Bool
  setInterestOk : Bool
  createGrammarOk : Bool
  loadDictationOk : Bool
  activateOk : Bool
deriving DecidableEq

/-- The fields of the `SpeechRecognition` class.  Handle fields are `true`
when non-null; callback fields are `true` when a callback is registered. -/
structure SRState where
  recognizer : Bool
  context : Bool
  grammar : Bool
  recognitionEvent : Bool
  isInitialized : Bool
  isListening : Bool
  shouldStop : Bool
  comInitialized : Bool
  threadJoinable : Bool
  hasResultCb : Bool
  hasErrorCb : Bool
  hasStatusCb : Bool
deriving DecidableEq

/-- A freshly constructed `SpeechRecognition` object (all handles null, all
flags false), with the given callback registrations. -/
def freshState (rc ec sc : Bool) : SRState :=
  { recognizer := false, context := false, grammar := false, recognitionEvent := false,
    isInitialized := false, isListening := false, shouldStop := false, comInitialized := false,
    threadJoinable := false, hasResultCb := rc, hasErrorCb := ec, hasStatusCb := sc }

def msgCoInitFailed : String := "COM 初始化失败"

def msgCreateRecognizerFailed : String := "创建语音识别器失败，请确保 Windows 语音识别已启用"

def msgCreateContextFailed : String := "创建识别上下文失败"

def msgSetInterestFailed : String := "设置事件失败"

def msgCreateGrammarFailed : String := "创建语法失败"

def msgLoadDictationFailed : String := "加载听写语法失败，请确保已安装语音识别语言包"

def msgActivateFailed : String := "激活听写失败"

def stInitialized : String := "initialized"

def stListening : String := "listening"

def stStopped : String := "stopped"

/-- `if (error_callback_) error_callback_(msg);` on the control thread: an
unlocked read of the slot, then an invocation when a callback is registered. -/
def emitError (s : SRState) (m : String) : List Eff :=
  Eff.readSlot Slot.error false :: (if s.hasErrorCb then [Eff.invokeError m] else [])

/-- `if (status_callback_) status_callback_(st);` with the given registration
flag: an unlocked read of the slot, then an invocation when registered. -/
def emitStatusFlag (has : Bool) (m : String) : List Eff :=
  Eff.readSlot Slot.status false :: (if has then [Eff.invokeStatus m] else [])

/-- `if (status_callback_) status_callback_(st);` on the control thread. -/
def emitStatus (s : SRState) (m : String) : List Eff :=
  emitStatusFlag s.hasStatusCb m

/-- `SpeechRecognition::Cleanup` (lines 109-128): release grammar, context,
recognizer (each only if non-null), clear — never close — the event handle,
then `CoUninitialize` if this object initialized COM. -/
def Cleanup (s : SRState) : SRState × List Eff :=
  let e1 : List Eff := if s.grammar then [Eff.releaseGrammar] else []
  let e2 : List Eff := if s.context then [Eff.releaseContext] else []
  let e3 : List Eff := if s.recognizer then [Eff.releaseRecognizer] else []
  let e4 : List Eff := [Eff.clearEventHandle]
  let e5 : List Eff := if s.comInitialized then [Eff.coUninit] else []
  ({ s with grammar := false, context := false, recognizer := false,
            recognitionEvent := false, comInitialized := false },
   e1 ++ e2 ++ e3 ++ e4 ++ e5)

/-- `SpeechRecognition::Initialize` (lines 33-107).  Returns the boolean
result, the post state, and the effect log.  Acquisition effects are logged at
the point the corresponding native call succeeds; failed steps emit the
step-specific error message and run `Cleanup`. -/
def Initialize (env : Env) (s : SRState) : Bool × SRState × List Eff :=
  if s.isInitialized then (true, s, [])
  else if env.coInit = CoInitRes.failed then (false, s, emitError s msgCoInitFailed)
  else
    let s1 := { s with comInitialized := env.coInit = CoInitRes.ok }
    let a1 : List Eff := if env.coInit = CoInitRes.ok then [Eff.acquireCom] else []
    if env.createRecognizerOk = false then
      let r := Cleanup s1
      (false, r.1, a1 ++ emitError s1 msgCreateRecognizerFailed ++ r.2)
    else
      let s2 := { s1 with recognizer := true }
      let a2 := a1 ++ [Eff.acquireRecognizer]
      if env.createContextOk = false then
        let r := Cleanup s2
        (false, r.1, a2 ++ emitError s2 msgCreateContextFailed ++ r.2)
      else
        let s3 := { s2 with context := true }
        let a3 := a2 ++ [Eff.acquireContext]
        if env.setInterestOk = false then
          let r := Cleanup s3
          (false, r.1, a3 ++ [Eff.setInterestOp] ++ emitError s3 msgSetInterestFailed ++ r.2)
        else
          let a4 := a3 ++ [Eff.setInterestOp]
          let s4 := { s3 with recognitionEvent := true }
          let a5 := a4 ++ [Eff.setEventHandle]
          if env.createGrammarOk = false then
            let r := Cleanup s4
            (false, r.1, a5 ++ emitError s4 msgCreateGrammarFailed ++ r.2)
          else
            let s5 := { s4 with grammar := true }
            let a6 := a5 ++ [Eff.acquireGrammar]
            if env.loadDictationOk = false then
              let r := Cleanup s5
              (false, r.1, a6 ++ [Eff.loadDictationOp] ++ emitError s5 msgLoadDictationFailed ++ r.2)
            else
              let s6 := { s5 with isInitialized := true }
              (true, s6, a6 ++ [Eff.loadDictationOp] ++ emitStatus s6 stInitialized)

/-- Lines 137-159 of `SpeechRecognition::StartListening` (the part after the
implicit initialize): no-op success when already listening; otherwise
`SetDictationState(SPRS_ACTIVE)`, and on success set the flags, spawn the
recognition thread and emit the listening status. -/
def StartListeningCore (env : Env) (s : SRState) : Bool × SRState × List Eff :=
  if s.isListening then (true, s, [])
  else if env.activateOk = false then
    (false, s, Eff.activateOp :: emitError s msgActivateFailed)
  else
    let s1 := { s with isListening := true, shouldStop := false, threadJoinable := true }
    (true, s1, [Eff.activateOp, Eff.spawnThread] ++ emitStatus s1 stListening)

/-- `SpeechRecognition::StartListening` (lines 130-160): implicit `Initialize`
when not initialized, propagating its failure. -/
def StartListening (env : Env) (s : SRState) : Bool × SRState × List Eff :=
  if s.isInitialized = false then
    let r := Initialize env s
    if r.1 = false then (false, r.2.1, r.2.2)
    else
      let r2 := StartListeningCore env r.2.1
      (r2.1, r2.2.1, r.2.2 ++ r2.2.2)
  else StartListeningCore env s

/-- `SpeechRecognition::StopListening` (lines 162-183), control-thread view:
no-op unless listening; set the stop flag, clear the listening flag,
best-effort deactivate the grammar, join the recognition thread if joinable,
emit the stopped status.  (What the polling thread itself does up to the join
is modelled by the `SysStep` machine below.) -/
def StopListening (s : SRState) : SRState × List Eff :=
  if s.isListening = false then (s, [])
  else
    let s1 := { s with shouldStop := true, isListening := false }
    let deact : List Eff := if s1.grammar then [Eff.deactivateOp] else []
    let joinE : List Eff := if s1.threadJoinable then [Eff.joinThread] else []
    let s2 := { s1 with threadJoinable := false }
    (s2, deact ++ joinE ++ emitStatus s2 stStopped)

/-- `SpeechRecognition::~SpeechRecognition` (lines 9-31): `StopListening`,
then the same release sequence as `Cleanup` (the destructor body repeats
lines 110-127 verbatim: release grammar, context, recognizer, clear the event
handle without closing it, `CoUninitialize` if owned). -/
def Destructor (s : SRState) : SRState × List Eff :=
  let r := StopListening s
  let r2 := Cleanup r.1
  (r2.1, r.2 ++ r2.2)

/-- `SpeechRecognition::SetResultCallback` (lines 248-251): write the slot
under `callback_mutex_`. -/
def SetResultCallback (p : Bool) (s : SRState) : SRState × List Eff :=
  ({ s with hasResultCb := p }, [Eff.writeSlot Slot.result true])

/-- `SpeechRecognition::SetErrorCallback` (lines 253-256). -/
def SetErrorCallback (p : Bool) (s : SRState) : SRState × List Eff :=
  ({ s with hasErrorCb := p }, [Eff.writeSlot Slot.error true])

/-- `SpeechRecognition::SetStatusCallback` (lines 258-261). -/
def SetStatusCallback (p : Bool) (s : SRState) : SRState × List Eff :=
  ({ s with hasStatusCb := p }, [Eff.writeSlot Slot.status true])

/-- The `eEventId` values the loop distinguishes: `SPEI_RECOGNITION`,
`SPEI_FALSE_RECOGNITION`, anything else. -/
inductive SPEventId
  | recognition
  | falseRecognition
  | other
deriving DecidableEq

/-- One `SPEVENT` drained by `GetEvents`.  `lparamIsObject` is
`elParamType == SPET_LPARAM_IS_OBJECT`, `lparamNonNull` is `lParam != 0`.
`getText = some t` models `GetText` succeeding with a non-null buffer whose
UTF-8 conversion is `t`; `none` models `GetText` failing or yielding null. -/
structure SPEvent where
  eventId : SPEventId
  lparamIsObject : Bool
  lparamNonNull : Bool
  getText : Option String
deriving DecidableEq

/-- Body of the inner drain loop of `SpeechRecognition::RecognitionThread`
(lines 195-234) for one fetched event; `cb` is whether `result_callback_` is
registered at the moment the lock is taken. -/
def processEvent (cb : Bool) (e : SPEvent) : List Eff :=
  if e.eventId = SPEventId.recognition ∨ e.eventId = SPEventId.falseRecognition then
    if e.lparamIsObject = true ∧ e.lparamNonNull = true then
      (if e.eventId = SPEventId.recognition then
        match e.getText with
        | some t =>
            Eff.readSlot Slot.result true ::
              ((if cb = true ∧ t ≠ "" then [Eff.invokeResult t true] else []) ++
                [Eff.coTaskFree])
        | none => []
      else []) ++ [Eff.releaseEventObject]
    else []
  else
    if e.lparamIsObject = true ∧ e.lparamNonNull = true then [Eff.releaseEventObject] else []

/-- The drain loop of `RecognitionThread`: process each queued event in order
until `GetEvents` fetches nothing. -/
def drainEvents (cb : Bool) : List SPEvent → List Eff
  | [] => []
  | e :: rest => processEvent cb e ++ drainEvents cb rest

/-- An environment in which every native call succeeds. -/
def envAllOk : Env :=
  { coInit := CoInitRes.ok, createRecognizerOk := true, createContextOk := true,
    setInterestOk := true, createGrammarOk := true, loadDictationOk := true,
    activateOk := true }

example : (Initialize envAllOk (freshState true true true)).1 = true := by decide

example : (Initialize { envAllOk with createContextOk := false } (freshState true true true)).2.2 =
    [Eff.acquireCom, Eff.acquireRecognizer,
     Eff.readSlot Slot.error false, Eff.invokeError msgCreateContextFailed,
     Eff.releaseRecognizer, Eff.clearEventHandle, Eff.coUninit] := by
  decide

/-! ### Effect-log classifiers -/

/-- Successful native-resource acquisitions (COM init, recognizer, context,
grammar). -/
def isAcquire : Eff → Bool
  | Eff.acquireCom | Eff.acquireRecognizer | Eff.acquireContext | Eff.acquireGrammar => true
  | _ => false

/-- Release operations matching the acquisitions (the three `Release` calls
and `CoUninitialize`). -/
def isReleaseOp : Eff → Bool
  | Eff.releaseGrammar | Eff.releaseContext | Eff.releaseRecognizer | Eff.coUninit => true
  | _ => false

def acquireOps (l : List Eff) : List Eff := l.filter isAcquire

def releaseOps (l : List Eff) : List Eff := l.filter isReleaseOp

/-- The release that undoes a given acquisition. -/
def matchingRelease : Eff → Eff
  | Eff.acquireCom => Eff.coUninit
  | Eff.acquireRecognizer => Eff.releaseRecognizer
  | Eff.acquireContext => Eff.releaseContext
  | Eff.acquireGrammar => Eff.releaseGrammar
  | e => e

/-- The messages delivered through `error_callback_`. -/
def errorMsgs (l : List Eff) : List String :=
  l.filterMap fun e =>
    match e with
    | Eff.invokeError m => some m
    | _ => none

/-- The six step-specific failure messages of `Initialize`, in step order. -/
def initFailMsgs : List String :=
  [msgCoInitFailed, msgCreateRecognizerFailed, msgCreateContextFailed,
   msgSetInterestFailed, msgCreateGrammarFailed, msgLoadDictationFailed]

/-- The message reported for the first failing step of `Initialize` in the
given environment (unused when nothing fails). -/
def initFailCause (env : Env) : String :=
  if env.coInit = CoInitRes.failed then msgCoInitFailed
  else if env.createRecognizerOk = false then msgCreateRecognizerFailed
  else if env.createContextOk = false then msgCreateContextFailed
  else if env.setInterestOk = false then msgSetInterestFailed
  else if env.createGrammarOk = false then msgCreateGrammarFailed
  else msgLoadDictationFailed

/-- A callback-slot access performed without holding `callback_mutex_`. -/
def unlockedSlotAccess : Eff → Bool
  | Eff.readSlot _ locked => !locked
  | Eff.writeSlot _ locked => !locked
  | _ => false

def unlockedSlotAccesses (l : List Eff) : List Eff := l.filter unlockedSlotAccess

/-- Callback invocations (the three callback calls). -/
def isInvocation : Eff → Bool
  | Eff.invokeResult _ _ | Eff.invokeError _ | Eff.invokeStatus _ => true
  | _ => false

def invocations (l : List Eff) : List Eff := l.filter isInvocation

/-! ### Interleaving machine for the stop/join guarantee

The two threads of the session: the control thread running `StopListening`
and the recognition (polling) thread of `RecognitionThread` (lines 185-237).
A `Sys` state carries the shared flags, the phase of each thread, the schedule
of remaining wait rounds (one entry per `WaitForSingleObject` wake-up, the
events `GetEvents` will fetch in that round; a timeout round is `[]`), and the
trace of emitted effects tagged with the thread that produced them. -/

inductive ThreadPhase
  | notSpawned
  | running
  | finished
deriving DecidableEq

inductive CtrlPhase
  | idle
  | stopJoining
  | stopReturned
deriving DecidableEq

inductive Origin
  | ctrl
  | poll
deriving DecidableEq

structure Emit where
  origin : Origin
  eff : Eff
deriving DecidableEq

def ctrlEmits (l : List Eff) : List Emit := l.map fun e => { origin := Origin.ctrl, eff := e }

def pollEmits (l : List Eff) : List Emit := l.map fun e => { origin := Origin.poll, eff := e }

structure Sys where
  shouldStop : Bool
  isListening : Bool
  hasResultCb : Bool
  hasStatusCb : Bool
  hasGrammar : Bool
  thread : ThreadPhase
  ctrl : CtrlPhase
  pending : List (List SPEvent)
  trace : List Emit
deriving DecidableEq

/-- Small-step interleaving of the polling loop with `StopListening`.
`pollExit` is the loop head observing `should_stop_`; `pollRound` is one
wake-up of `WaitForSingleObject` followed by the full drain of the fetched
events; `stopBegin` is lines 167-173 of `StopListening` (set the stop flag,
clear the listening flag, best-effort deactivate); `stopFinish` is the join
(lines 176-177, it can only complete once the thread function has returned)
followed by the stopped status (lines 180-182); `setSlot` is a concurrent
`SetResultCallback` from the control side. -/
inductive SysStep : Sys → Sys → Prop
  | pollExit (s : Sys) (hT : s.thread = ThreadPhase.running) (hF : s.shouldStop = true) :
      SysStep s { s with thread := ThreadPhase.finished }
  | pollRound (s : Sys) (evs : List SPEvent) (rest : List (List SPEvent))
      (hT : s.thread = ThreadPhase.running) (hF : s.shouldStop = false)
      (hP : s.pending = evs :: rest) :
      SysStep s { s with pending := rest,
                         trace := s.trace ++ pollEmits (drainEvents s.hasResultCb evs) }
  | stopBegin (s : Sys) (hC : s.ctrl = CtrlPhase.idle) (hL : s.isListening = true) :
      SysStep s { s with shouldStop := true, isListening := false, ctrl := CtrlPhase.stopJoining,
                         trace := s.trace ++
                           ctrlEmits (if s.hasGrammar then [Eff.deactivateOp] else []) }
  | stopFinish (s : Sys) (hC : s.ctrl = CtrlPhase.stopJoining) (hT : s.thread ≠ ThreadPhase.running) :
      SysStep s { s with ctrl := CtrlPhase.stopReturned,
                         trace := s.trace ++ ctrlEmits
                           (Eff.joinThread :: emitStatusFlag s.hasStatusCb stStopped) }
  | setSlot (s : Sys) (b : Bool) :
      SysStep s { s with hasResultCb := b,
                         trace := s.trace ++ ctrlEmits [Eff.writeSlot Slot.result true] }

/-- Finitely many interleaved steps. -/
def Steps : Sys → Sys → Prop := Relation.ReflTransGen SysStep

/-- The part of a trace produced by the polling thread. -/
def pollTrace (t : List Emit) : List Emit := t.filter fun e => decide (e.origin = Origin.poll)

lemma pollTrace_append (a b : List Emit) : pollTrace (a ++ b) = pollTrace a ++ pollTrace b :=
  List.filter_append a b

lemma pollTrace_ctrlEmits (l : List Eff) : pollTrace (ctrlEmits l) = [] := by
  simp [pollTrace, ctrlEmits]

lemma sysStep_preserves_quiet {s s' : Sys} (h : SysStep s s')
    (hq : s.ctrl = CtrlPhase.stopReturned → s.thread ≠ ThreadPhase.running) :
    s'.ctrl = CtrlPhase.stopReturned → s'.thread ≠ ThreadPhase.running := by
  cases h <;> simp_all

lemma steps_preserves_quiet {s s' : Sys} (h : Steps s s')
    (hq : s.ctrl = CtrlPhase.stopReturned → s.thread ≠ ThreadPhase.running) :
    s'.ctrl = CtrlPhase.stopReturned → s'.thread ≠ ThreadPhase.running := by
  induction h with
  | refl => exact hq
  | tail hab hbc ih => exact sysStep_preserves_quiet hbc ih

lemma sysStep_after_stop {s s' : Sys} (h : SysStep s s')
    (hc : s.ctrl = CtrlPhase.stopReturned) (ht : s.thread ≠ ThreadPhase.running) :
    s'.ctrl = CtrlPhase.stopReturned ∧ s'.thread ≠ ThreadPhase.running ∧
      pollTrace s'.trace = pollTrace s.trace := by
  cases h with
  | pollExit hT hF => exact absurd hT ht
  | pollRound evs rest hT hF hP => exact absurd hT ht
  | stopBegin hC hL => rw [hc] at hC; exact absurd hC (by decide)
  | stopFinish hC hT2 => rw [hc] at hC; exact absurd hC (by decide)
  | setSlot b =>
      exact ⟨hc, ht, by simp [pollTrace_append, pollTrace_ctrlEmits]⟩

lemma steps_after_stop {s s' : Sys} (h : Steps s s')
    (hc : s.ctrl = CtrlPhase.stopReturned) (ht : s.thread ≠ ThreadPhase.running) :
    s'.ctrl = CtrlPhase.stopReturned ∧ s'.thread ≠ ThreadPhase.running ∧
      pollTrace s'.trace = pollTrace s.trace := by
  induction h with
  | refl => exact ⟨hc, ht, rfl⟩
  | tail hab hbc ih =>
      obtain ⟨h1, h2, h3⟩ := ih
      obtain ⟨g1, g2, g3⟩ := sysStep_after_stop hbc h1 h2
      exact ⟨g1, g2, g3.trans h3⟩

/-- Claim C1: in every interleaved execution that starts with the control
thread idle and the session listening (recognition thread running), when
`StopListening` has returned the recognition thread is no longer running (the
join completed before the return), and from that point on no further execution
step adds any polling-thread emission to the trace — in particular no
`ResultCallback`/`ErrorCallback` invocation from the polling thread occurs
after `StopListening` returns (the machine has no start step, matching the
claim's assumption of no subsequent start). -/
theorem speech_C1_stop_joins_and_silences (s0 s1 s2 : Sys)
    (h0 : s0.ctrl = CtrlPhase.idle) (_hL0 : s0.isListening = true)
    (_hT0 : s0.thread = ThreadPhase.running)
    (h01 : Steps s0 s1) (hret : s1.ctrl = CtrlPhase.stopReturned)
    (h12 : Steps s1 s2) :
    s1.thread ≠ ThreadPhase.running ∧ pollTrace s2.trace = pollTrace s1.trace := by
  have hq : s1.ctrl = CtrlPhase.stopReturned → s1.thread ≠ ThreadPhase.running :=
    steps_preserves_quiet h01 (fun hcr => nomatch h0.symm.trans hcr)
  have ht1 := hq hret
  have h := steps_after_stop h12 hret ht1
  exact ⟨ht1, h.2.2⟩

/-- A listening session: recognition thread running, control thread idle. -/
def sysListen0 : Sys :=
  { shouldStop := false, isListening := true, hasResultCb := true, hasStatusCb := false,
    hasGrammar := false, thread := ThreadPhase.running, ctrl := CtrlPhase.idle,
    pending := [], trace := [] }

/-- `sysListen0` after `StopListening` has set the flags (deactivation skipped:
no grammar in this configuration). -/
def sysStopA : Sys :=
  { sysListen0 with
      shouldStop := true, isListening := false, ctrl := CtrlPhase.stopJoining,
      trace := sysListen0.trace ++
        ctrlEmits (if sysListen0.hasGrammar then [Eff.deactivateOp] else []) }

/-- `sysStopA` after the polling loop observed the stop flag and exited. -/
def sysStopB : Sys :=
  { sysStopA with thread := ThreadPhase.finished }

/-- `sysStopB` after the join returned and `StopListening` finished. -/
def sysStopC : Sys :=
  { sysStopB with
      ctrl := CtrlPhase.stopReturned,
      trace := sysStopB.trace ++ ctrlEmits
        (Eff.joinThread :: emitStatusFlag sysStopB.hasStatusCb stStopped) }

theorem speech_C1_witness :
    Steps sysListen0 sysStopC ∧ sysStopC.ctrl = CtrlPhase.stopReturned ∧
      sysStopC.thread ≠ ThreadPhase.running ∧
      pollTrace sysStopC.trace = pollTrace sysStopC.trace := by
  have hA : SysStep sysListen0 sysStopA := SysStep.stopBegin sysListen0 rfl rfl
  have hB : SysStep sysStopA sysStopB := SysStep.pollExit sysStopA rfl rfl
  have hC : SysStep sysStopB sysStopC := SysStep.stopFinish sysStopB rfl (by decide)
  have hchain : Steps sysListen0 sysStopC :=
    Relation.ReflTransGen.head hA
      (Relation.ReflTransGen.head hB (Relation.ReflTransGen.single hC))
  refine ⟨hchain, rfl, ?_, ?_⟩
  · exact (speech_C1_stop_joins_and_silences sysListen0 sysStopC sysStopC rfl rfl rfl hchain rfl
      Relation.ReflTransGen.refl).1
  · exact (speech_C1_stop_joins_and_silences sysListen0 sysStopC sysStopC rfl rfl rfl hchain rfl
      Relation.ReflTransGen.refl).2

/-! ### Claim C2 -/

/-- Claim C2 as stated is false on the code: on the success path of
`Initialize` the control thread reads `status_callback_` (line 103) without
holding `callback_mutex_`, so not every access of the three callback slots is
performed under the lock. -/
theorem speech_C2_counterexample :
    ¬ (∀ x ∈ (Initialize envAllOk (freshState true true true)).2.2,
        unlockedSlotAccess x = false) := by
  decide

lemma processEvent_no_unlocked (cb : Bool) (e : SPEvent) :
    unlockedSlotAccesses (processEvent cb e) = [] := by
  obtain ⟨id, io, nn, gt⟩ := e
  rcases gt with _ | t
  · cases id <;> cases io <;> cases nn <;> cases cb <;> decide
  · by_cases ht : cb = true ∧ t ≠ "" <;>
      cases id <;> cases io <;> cases nn <;>
        simp [processEvent, unlockedSlotAccesses, unlockedSlotAccess, ht,
          List.filter_append]

lemma drainEvents_no_unlocked (cb : Bool) (evs : List SPEvent) :
    unlockedSlotAccesses (drainEvents cb evs) = [] := by
  induction evs with
  | nil => rfl
  | cons e rest ih =>
      have h1 := processEvent_no_unlocked cb e
      simp only [unlockedSlotAccesses] at h1 ih ⊢
      simp [drainEvents, List.filter_append, h1, ih]

/-- Claim C2 (amended): the writes performed by the three callback setters and
every callback-slot access performed by the polling thread's drain loop are
under `callback_mutex_`; however (see the counterexample) the control-thread
reads of `error_callback_` / `status_callback_` inside `Initialize`,
`StartListening` and `StopListening` happen without the lock. -/
theorem speech_C2_amended_locked_accesses (p cb : Bool) (s : SRState) (evs : List SPEvent) :
    unlockedSlotAccesses (SetResultCallback p s).2 = [] ∧
    unlockedSlotAccesses (SetErrorCallback p s).2 = [] ∧
    unlockedSlotAccesses (SetStatusCallback p s).2 = [] ∧
    unlockedSlotAccesses (drainEvents cb evs) = [] :=
  ⟨rfl, rfl, rfl, drainEvents_no_unlocked cb evs⟩

/-! ### Claim C3 -/

/-- Claim C3: whenever `Initialize` fails on a fresh (uninitialized) session
with an error callback registered, the releases performed are exactly the
matching releases of the successful acquisitions in reverse acquisition
order, the session is left in the pristine uninitialized state (all handle
fields null, `is_initialized_` false), and exactly one step-specific error
message (the six messages are pairwise distinct) is reported through
`ErrorCallback`. -/
theorem speech_C3_partial_init_unwind (env : Env) (rc sc : Bool)
    (hfail : (Initialize env (freshState rc true sc)).1 = false) :
    releaseOps (Initialize env (freshState rc true sc)).2.2 =
      (acquireOps (Initialize env (freshState rc true sc)).2.2).reverse.map matchingRelease ∧
    (Initialize env (freshState rc true sc)).2.1 = freshState rc true sc ∧
    errorMsgs (Initialize env (freshState rc true sc)).2.2 = [initFailCause env] ∧
    initFailMsgs.Nodup := by
  obtain ⟨c, b1, b2, b3, b4, b5, b6⟩ := env
  revert hfail
  cases c <;> cases b1 <;> cases b2 <;> cases b3 <;> cases b4 <;> cases b5 <;> cases b6 <;>
    cases rc <;> cases sc <;> decide

/-- An environment whose only failure is recognizer creation. -/
def envRecFail : Env := { envAllOk with createRecognizerOk := false }

theorem speech_C3_witness :
    (Initialize envRecFail (freshState true true true)).1 = false ∧
    (releaseOps (Initialize envRecFail (freshState true true true)).2.2 =
        (acquireOps (Initialize envRecFail (freshState true true true)).2.2).reverse.map
          matchingRelease ∧
      (Initialize envRecFail (freshState true true true)).2.1 = freshState true true true ∧
      errorMsgs (Initialize envRecFail (freshState true true true)).2.2 =
        [initFailCause envRecFail] ∧
      initFailMsgs.Nodup) :=
  ⟨by decide, speech_C3_partial_init_unwind envRecFail true true (by decide)⟩

/-! ### Claim C4 -/

/-- Claim C4: for a drained event (with its attached result object), a
Recognized event whose extracted text is non-empty invokes
`ResultCallback(text, isFinal := true)` exactly once; a Rejected
(false-recognition) event invokes no callback; a Recognized event with empty
extracted text invokes no callback but its result object is still released
(drained). -/
theorem speech_C4_event_translation (cb : Bool) (e : SPEvent) (t : String) :
    (e.eventId = SPEventId.recognition → e.lparamIsObject = true → e.lparamNonNull = true →
      e.getText = some t → t ≠ "" → cb = true →
      invocations (processEvent cb e) = [Eff.invokeResult t true]) ∧
    (e.eventId = SPEventId.falseRecognition → invocations (processEvent cb e) = []) ∧
    (e.eventId = SPEventId.recognition → e.getText = some "" →
      invocations (processEvent cb e) = [] ∧
      (e.lparamIsObject = true → e.lparamNonNull = true →
        (processEvent cb e).count Eff.releaseEventObject = 1)) := by
  obtain ⟨id, io, nn, gt⟩ := e
  refine ⟨?_, ?_, ?_⟩
  · rintro rfl rfl rfl rfl ht rfl
    simp [processEvent, invocations, isInvocation, ht]
  · rintro rfl
    cases io <;> cases nn <;> cases gt <;> cases cb <;>
      simp [processEvent, invocations, isInvocation]
  · rintro rfl rfl
    refine ⟨?_, ?_⟩
    · cases io <;> cases nn <;> cases cb <;> decide
    · rintro rfl rfl
      cases cb <;> decide

def txtHello : String := "hello world"

/-- A Recognized event carrying a result object whose text is non-empty. -/
def evRecHello : SPEvent :=
  { eventId := SPEventId.recognition, lparamIsObject := true, lparamNonNull := true,
    getText := some txtHello }

theorem speech_C4_witness :
    invocations (processEvent true evRecHello) = [Eff.invokeResult txtHello true] :=
  (speech_C4_event_translation true evRecHello txtHello).1 rfl rfl rfl rfl (by decide) rfl

/-! ### Claim C5 -/

/-- Claim C5: every drained event that carries an attached native result
object (`elParamType == SPET_LPARAM_IS_OBJECT` and non-null `lParam`) has that
object released exactly once on every path of the polling loop — Recognized
and Rejected alike, including the paths where `GetText` fails or yields empty
or non-empty text. -/
theorem speech_C5_release_once (cb : Bool) (e : SPEvent)
    (h1 : e.lparamIsObject = true) (h2 : e.lparamNonNull = true) :
    (processEvent cb e).count Eff.releaseEventObject = 1 := by
  obtain ⟨id, io, nn, gt⟩ := e
  subst h1; subst h2
  rcases gt with _ | t
  · cases id <;> cases cb <;> decide
  · by_cases ht : cb = true ∧ t ≠ "" <;>
      cases id <;>
        simp [processEvent, ht, List.count_cons, List.count_append]

/-- A Recognized event whose `GetText` fails (no text extracted). -/
def evRecNoText : SPEvent :=
  { eventId := SPEventId.recognition, lparamIsObject := true, lparamNonNull := true,
    getText := none }

theorem speech_C5_witness :
    (processEvent true evRecNoText).count Eff.releaseEventObject = 1 :=
  speech_C5_release_once true evRecNoText rfl rfl

/-! ### Claim C6 -/

/-- Claim C6: `Initialize` is idempotent — once `is_initialized_` is true (in
state Initialized or Listening), a further `Initialize` returns true with no
state change, no resource acquisition, no engine operation and no callback
activity (empty effect log). -/
theorem speech_C6_idempotent (env : Env) (s : SRState) (h : s.isInitialized = true) :
    Initialize env s = (true, s, []) := by
  simp [Initialize, h]

/-- A successfully initialized session (all handles held). -/
def sInited : SRState :=
  { freshState true true true with
      recognizer := true, context := true, grammar := true, recognitionEvent := true,
      isInitialized := true, comInitialized := true }

theorem speech_C6_witness : Initialize envAllOk sInited = (true, sInited, []) :=
  speech_C6_idempotent envAllOk sInited rfl

/-! ### Claim C7 -/

lemma spawn_notin_emitError (s : SRState) (m : String) :
    Eff.spawnThread ∉ emitError s m := by
  by_cases h : s.hasErrorCb <;> simp [emitError, h]

lemma spawn_notin_emitStatus (s : SRState) (m : String) :
    Eff.spawnThread ∉ emitStatus s m := by
  by_cases h : s.hasStatusCb <;> simp [emitStatus, emitStatusFlag, h]

lemma spawn_notin_Cleanup (s : SRState) :
    Eff.spawnThread ∉ (Cleanup s).2 := by
  cases hg : s.grammar <;> cases hc : s.context <;> cases hr : s.recognizer <;>
    cases hm : s.comInitialized <;> simp [Cleanup, hg, hc, hr, hm]

lemma spawn_notin_Initialize (env : Env) (s : SRState) :
    Eff.spawnThread ∉ (Initialize env s).2.2 := by
  by_cases h0 : s.isInitialized
  · simp [Initialize, h0]
  · obtain ⟨c, b1, b2, b3, b4, b5, b6⟩ := env
    cases c <;> cases b1 <;> cases b2 <;> cases b3 <;> cases b4 <;> cases b5 <;>
      simp [Initialize, h0, spawn_notin_emitError, spawn_notin_Cleanup, spawn_notin_emitStatus]

/-- Claim C7: `StartListening` on an uninitialized session first performs the
full `Initialize` (its effect log is a prefix of `StartListening`'s); if that
implicit initialize fails, `StartListening` returns false with exactly the
initialize outcome and no polling thread is spawned. -/
theorem speech_C7_implicit_init (env : Env) (s : SRState) (h : s.isInitialized = false) :
    (∃ rest, (StartListening env s).2.2 = (Initialize env s).2.2 ++ rest) ∧
    ((Initialize env s).1 = false →
      StartListening env s = (false, (Initialize env s).2.1, (Initialize env s).2.2) ∧
      Eff.spawnThread ∉ (StartListening env s).2.2) := by
  by_cases hf : (Initialize env s).1 = false
  · refine ⟨⟨[], ?_⟩, fun _ => ⟨?_, ?_⟩⟩
    · simp [StartListening, h, hf]
    · simp [StartListening, h, hf]
    · simp only [StartListening, h]
      simp [hf]
      exact spawn_notin_Initialize env s
  · rw [Bool.not_eq_false] at hf
    refine ⟨⟨(StartListeningCore env (Initialize env s).2.1).2.2, ?_⟩, fun hff => ?_⟩
    · simp [StartListening, h, hf]
    · rw [hf] at hff; exact absurd hff (by decide)

theorem speech_C7_witness :
    (freshState true true true).isInitialized = false ∧
    (Initialize envRecFail (freshState true true true)).1 = false ∧
    (StartListening envRecFail (freshState true true true) =
        (false, (Initialize envRecFail (freshState true true true)).2.1,
          (Initialize envRecFail (freshState true true true)).2.2) ∧
      Eff.spawnThread ∉ (StartListening envRecFail (freshState true true true)).2.2) :=
  ⟨rfl, by decide,
    (speech_C7_implicit_init envRecFail (freshState true true true) rfl).2 (by decide)⟩

/-! ### Claim C8 -/

/-- Claim C8: `StartListening` in state Initialized (not listening) with
failing grammar activation emits the activation error through `ErrorCallback`,
returns false, and changes nothing else: the returned state is exactly the
input state (still Initialized, not Listening, stop flag untouched, all
handles retained) and no thread is spawned. -/
theorem speech_C8_activate_fail_frame (env : Env) (s : SRState)
    (h1 : s.isInitialized = true) (h2 : s.isListening = false)
    (h3 : env.activateOk = false) (h4 : s.hasErrorCb = true) :
    StartListening env s =
      (false, s, [Eff.activateOp, Eff.readSlot Slot.error false,
        Eff.invokeError msgActivateFailed]) ∧
    Eff.spawnThread ∉ (StartListening env s).2.2 := by
  have hmain : StartListening env s =
      (false, s, [Eff.activateOp, Eff.readSlot Slot.error false,
        Eff.invokeError msgActivateFailed]) := by
    simp [StartListening, StartListeningCore, emitError, h1, h2, h3, h4]
  exact ⟨hmain, by rw [hmain]; simp⟩

/-- An environment whose only failure is grammar activation. -/
def envActFail : Env := { envAllOk with activateOk := false }

theorem speech_C8_witness :
    StartListening envActFail sInited =
      (false, sInited, [Eff.activateOp, Eff.readSlot Slot.error false,
        Eff.invokeError msgActivateFailed]) ∧
    Eff.spawnThread ∉ (StartListening envActFail sInited).2.2 :=
  speech_C8_activate_fail_frame envActFail sInited rfl rfl rfl rfl

/-! ### Claim C9 -/

/-- An environment in which `CoInitializeEx` reports `RPC_E_CHANGED_MODE`
(tolerated: initialization proceeds, but this object does not own the COM
initialization) and every other call succeeds. -/
def envChangedMode : Env := { envAllOk with coInit := CoInitRes.changedMode }

/-- Claim C9 as stated is false on the code: when `CoInitializeEx` returns
`RPC_E_CHANGED_MODE`, `Initialize` still succeeds but `com_initialized_`
stays false, so teardown performs zero `CoUninitialize` calls for that
successful initialize — not exactly one. -/
theorem speech_C9_counterexample :
    (Initialize envChangedMode (freshState true true true)).1 = true ∧
    ((Destructor (Initialize envChangedMode (freshState true true true)).2.1).2).count
      Eff.coUninit = 0 := by
  decide

/-- Claim C9 (amended): teardown of a successfully initialized session
releases the native resources in reverse acquisition order (grammar, then
context, then recognizer), clears but never closes the weak wait-handle
reference, and performs exactly one `CoUninitialize` when the successful
`Initialize` itself initialized COM (`com_initialized_` true, i.e.
`CoInitializeEx` did not report `RPC_E_CHANGED_MODE`) and none otherwise. -/
theorem speech_C9_teardown_order (env : Env) (rc sc : Bool)
    (hsucc : (Initialize env (freshState rc true sc)).1 = true) :
    releaseOps (Destructor (Initialize env (freshState rc true sc)).2.1).2 =
      [Eff.releaseGrammar, Eff.releaseContext, Eff.releaseRecognizer] ++
        (if env.coInit = CoInitRes.ok then [Eff.coUninit] else []) ∧
    Eff.clearEventHandle ∈ (Destructor (Initialize env (freshState rc true sc)).2.1).2 ∧
    Eff.closeEventHandle ∉ (Destructor (Initialize env (freshState rc true sc)).2.1).2 ∧
    ((Destructor (Initialize env (freshState rc true sc)).2.1).2).count Eff.coUninit =
      (if env.coInit = CoInitRes.ok then 1 else 0) := by
  obtain ⟨c, b1, b2, b3, b4, b5, b6⟩ := env
  revert hsucc
  cases c <;> cases b1 <;> cases b2 <;> cases b3 <;> cases b4 <;> cases b5 <;> cases b6 <;>
    cases rc <;> cases sc <;> decide

theorem speech_C9_witness :
    (Initialize envAllOk (freshState true true true)).1 = true ∧
    (releaseOps (Destructor (Initialize envAllOk (freshState true true true)).2.1).2 =
        [Eff.releaseGrammar, Eff.releaseContext, Eff.releaseRecognizer] ++
          (if envAllOk.coInit = CoInitRes.ok then [Eff.coUninit] else []) ∧
      Eff.clearEventHandle ∈ (Destructor (Initialize envAllOk (freshState true true true)).2.1).2 ∧
      Eff.closeEventHandle ∉ (Destructor (Initialize envAllOk (freshState true true true)).2.1).2 ∧
      ((Destructor (Initialize envAllOk (freshState true true true)).2.1).2).count Eff.coUninit =
        (if envAllOk.coInit = CoInitRes.ok then 1 else 0)) :=
  ⟨by decide, speech_C9_teardown_order envAllOk true true (by decide)⟩

/-! ### Claim C10 -/

/-- Claim C10: a drained Recognized or Rejected event whose attached parameter
is absent or not an object (`lParam` null or `elParamType` not
`SPET_LPARAM_IS_OBJECT`) produces no callback invocation and no release, and
draining simply continues with the next queued event. -/
theorem speech_C10_no_object_skip (cb : Bool) (e : SPEvent) (rest : List SPEvent)
    (hk : e.eventId = SPEventId.recognition ∨ e.eventId = SPEventId.falseRecognition)
    (hno : ¬(e.lparamIsObject = true ∧ e.lparamNonNull = true)) :
    processEvent cb e = [] ∧ drainEvents cb (e :: rest) = drainEvents cb rest := by
  have hpe : processEvent cb e = [] := by
    rcases hk with hk | hk <;> simp [processEvent, hk, hno]
  exact ⟨hpe, by simp [drainEvents, hpe]⟩

/-- A Recognized event whose `lParam` is null. -/
def evRecNullParam : SPEvent :=
  { eventId := SPEventId.recognition, lparamIsObject := true, lparamNonNull := false,
    getText := none }

theorem speech_C10_witness :
    processEvent true evRecNullParam = [] ∧
    drainEvents true (evRecNullParam :: [evRecHello]) = drainEvents true [evRecHello] :=
  speech_C10_no_object_skip true evRecNullParam [evRecHello] (Or.inl rfl) (by decide)

end SpeechRec
